import Mathlib

/-!
Verification of the `a2a-langgraph` host agent against its specification.

The development shallowly embeds the three host-agent modules:

* `langgraph_stub.py` — the generic graph workflow executor (`StateGraph`,
  `_CompiledGraph.ainvoke`, the `END` sentinel);
* `policy_manager.py` — the deterministic travel policy heuristics
  (`TravelPolicyManager.classify_request`, `should_block_rentals`);
* `routing_agent.py` — the concrete policy automaton (the five
  stage callables of `RoutingAgent`, its routing function, graph construction and
  `handle_user_message`).

Python dictionaries keyed by known stage names are modelled as association
lists with first-match lookup (matching `dict` lookup after the insertion pattern of the stub, where every key is written once and `add_node` overwrites
by prepending).  The blackboard `HostGraphState` dict is modelled as a
structure whose optional keys carry `Option` values; a key that the code only
ever reads through a falsy-tolerant accessor (`state.get(k, default)`) and
only ever writes with a value of a fixed shape is given the corresponding
plain type with that default.  The unbounded `while` loop of the executor is
modelled with explicit fuel, together with the trace of invoked stage names.

External collaborators (the remote specialist transport and the
location-hint regular expression) are modelled as parameters of an `Env`
record: a run is a pure function of the environment, the user message and
the session id, mirroring the code in which the extracted reply text of a
specialist is a function of the prompt sent to it.
-/

set_option autoImplicit false
set_option maxRecDepth 4000

namespace A2AHost

/-- Python substring operator `pat in s`, on the character sequences of the
two strings. -/
def strContains (s pat : String) : Bool := decide (pat.toList <:+: s.toList)

/-- Python `str.lower`, applied character-wise. -/
def lowerString (s : String) : String := String.mk (s.data.map Char.toLower)

/-- Python `str.strip`: drop whitespace from both ends. -/
def stripString (s : String) : String :=
  String.mk (((s.data.dropWhile Char.isWhitespace).reverse.dropWhile Char.isWhitespace).reverse)

/-! ## Generic executor (`langgraph_stub.py`) -/

/-- A position of the executor loop: a stage name, or the unique `END`
sentinel (`_EndSentinel`), which is distinct from every stage name. -/
inductive NodeRef where
  | node (name : String)
  | END
deriving DecidableEq, Repr

/-- Failure modes of the embedded graph machinery.  `configurationError`
models the `RuntimeError` raised by `StateGraph.compile` (named
`ConfigurationError` by the spec); `missingStage` models the `KeyError` raised by
`self._nodes[current]` when execution reaches an unregistered stage name
(named `MissingStageError` by the spec). -/
inductive GraphError where
  | configurationError (msg : String)
  | missingStage (name : String)
deriving DecidableEq, Repr

/-- Immutable compiled form of a graph (`_CompiledGraph`).  A node callable
returns `none` for Python `None` ("no change") or `some` replacement state. -/
structure CompiledGraph (σ : Type) where
  nodes : List (String × (σ → Option σ))
  edges : List (String × NodeRef)
  conditionals : List (String × ((σ → String) × List (String × String)))
  entry_point : String

/-- One iteration of the `while` loop body of `_CompiledGraph.ainvoke`:
look up the stage callable (`KeyError` → `missingStage` if absent), invoke
it, replace the state iff the result is not `None`, then compute the next
position from the conditional edge (unmapped route keys fall back to `END`)
or, failing that, the static edge (absent → `END`). -/
def stepNode {σ : Type} (g : CompiledGraph σ) (current : String) (state : σ) :
    Except GraphError (σ × NodeRef) :=
  match g.nodes.lookup current with
  | none => .error (.missingStage current)
  | some node =>
    let state' : σ :=
      match node state with
      | some result => result
      | none => state
    match g.conditionals.lookup current with
    | some (router, mapping) =>
      match mapping.lookup (router state') with
      | some next => .ok (state', .node next)
      | none => .ok (state', .END)
    | none =>
      match g.edges.lookup current with
      | some next => .ok (state', next)
      | none => .ok (state', .END)

/-- Outcome of running the executor with finite fuel: normal completion,
a propagated error, or fuel exhaustion while still at a stage (the Python
loop would simply keep going). -/
inductive RunResult (σ : Type) where
  | ok (final : σ)
  | error (e : GraphError)
  | outOfFuel (state : σ) (current : String)
deriving DecidableEq, Repr

/-- Fuel-indexed unfolding of the executor loop `while current is not END`
loop, starting at an arbitrary position.  Also returns the trace of stage
names whose callables were invoked, in order. -/
def runFrom {σ : Type} (g : CompiledGraph σ) : Nat → NodeRef → σ → RunResult σ × List String
  | _, .END, state => (.ok state, [])
  | 0, .node current, state => (.outOfFuel state current, [])
  | fuel + 1, .node current, state =>
    match stepNode g current state with
    | .error e => (.error e, [])
    | .ok (state', next) =>
      let rest := runFrom g fuel next state'
      (rest.1, current :: rest.2)

/-- `_CompiledGraph.ainvoke`: run the loop from the entry point on (a copy
of) the initial state. -/
def ainvoke {σ : Type} (g : CompiledGraph σ) (fuel : Nat) (initial_state : σ) :
    RunResult σ × List String :=
  runFrom g fuel (.node g.entry_point) initial_state

/-- Mutable graph definition (`StateGraph`). -/
structure StateGraph (σ : Type) where
  nodes : List (String × (σ → Option σ))
  edges : List (String × NodeRef)
  conditionals : List (String × ((σ → String) × List (String × String)))
  entry_point : Option String

/-- `StateGraph.__init__`: empty registries, no entry point. -/
def StateGraph.empty (σ : Type) : StateGraph σ :=
  { nodes := [], edges := [], conditionals := [], entry_point := none }

/-- `StateGraph.add_node`: register or overwrite a stage callable (prepending
preserves `dict` lookup semantics: the latest write wins). -/
def StateGraph.add_node {σ : Type} (g : StateGraph σ) (name : String) (func : σ → Option σ) :
    StateGraph σ :=
  { g with nodes := (name, func) :: g.nodes }

/-- `StateGraph.set_entry_point`. -/
def StateGraph.set_entry_point {σ : Type} (g : StateGraph σ) (name : String) : StateGraph σ :=
  { g with entry_point := some name }

/-- `StateGraph.add_edge`. -/
def StateGraph.add_edge {σ : Type} (g : StateGraph σ) (start : String) (stop : NodeRef) :
    StateGraph σ :=
  { g with edges := (start, stop) :: g.edges }

/-- `StateGraph.add_conditional_edges`. -/
def StateGraph.add_conditional_edges {σ : Type} (g : StateGraph σ) (start : String)
    (router : σ → String) (mapping : List (String × String)) : StateGraph σ :=
  { g with conditionals := (start, (router, mapping)) :: g.conditionals }

/-- `StateGraph.compile`: raises (`configurationError`) iff no entry point
was set; performs no other validation. -/
def StateGraph.compile {σ : Type} (g : StateGraph σ) : Except GraphError (CompiledGraph σ) :=
  match g.entry_point with
  | none => .error (.configurationError "StateGraph requires an entry point before compile().")
  | some entry =>
    .ok { nodes := g.nodes, edges := g.edges, conditionals := g.conditionals, entry_point := entry }

/-! ## Policy manager (`policy_manager.py`) -/

namespace TravelPolicyManager

/-- `TravelPolicyManager.WEATHER_KEYWORDS`. -/
def WEATHER_KEYWORDS : List String :=
  ["weather", "forecast", "temperature", "rain", "snow"]

/-- `TravelPolicyManager.RENTAL_KEYWORDS`. -/
def RENTAL_KEYWORDS : List String :=
  ["hotel", "stay", "rental", "lodging", "apartment", "condo", "cabin"]

/-- `TravelPolicyManager.HAZARD_KEYWORDS`. -/
def HAZARD_KEYWORDS : List String :=
  ["storm", "warning", "advisory", "hazard", "flood", "blizzard", "hurricane",
   "tornado", "heat wave", "dangerous"]

end TravelPolicyManager

/-- `PolicyClassification` dataclass. -/
structure PolicyClassification where
  need_weather : Bool
  need_rentals : Bool
  location_hint : Option String
  note : Option String
deriving DecidableEq, Repr

/-- `TravelPolicyManager.classify_request`.  The location hint is produced
by `_extract_location_hint`, a regular-expression search over the raw
message; no claim depends on its value, so it is passed in as the opaque
function `location_hint` (quantified universally in the theorems below). -/
def TravelPolicyManager.classify_request (location_hint : String → Option String)
    (message : String) : PolicyClassification :=
  let lowered := lowerString message
  let mentions_weather := TravelPolicyManager.WEATHER_KEYWORDS.any (strContains lowered)
  let mentions_rental := TravelPolicyManager.RENTAL_KEYWORDS.any (strContains lowered)
  let need_rentals := mentions_rental
  let need_weather := mentions_weather || need_rentals
  let note : Option String :=
    if need_rentals then
      some "Policy: hotel planning must include a fresh weather review before sharing listings."
    else if need_weather then
      some "Policy: provide a concise weather outlook from the specialist."
    else none
  { need_weather := need_weather
    need_rentals := need_rentals
    location_hint := location_hint message
    note := note }

/-- `TravelPolicyManager.should_block_rentals`. -/
def TravelPolicyManager.should_block_rentals (weather_report : String) : Bool :=
  TravelPolicyManager.HAZARD_KEYWORDS.any (strContains (lowerString weather_report))

/-! ## Routing agent (`routing_agent.py`) -/

/-- The `HostGraphState` blackboard dict.  `user_message` and `session_id`
are read with mandatory `state[...]` access and present in every state of a
run; `response_chunks` and `policy_notes` are only read via
`state.get(k, [])`, so an absent key is identified with `[]`; the two need
flags are only read for truthiness, so an absent key is identified with
`False`.  The remaining keys distinguish absent (`none`) from present. -/
structure HostGraphState where
  user_message : String
  session_id : String
  response_chunks : List String
  policy_notes : List String
  need_weather : Bool
  need_hotel : Bool
  location_hint : Option String
  weather_output : Option String
  hotel_output : Option String
  policy_route : Option String
  final_decision : Option String
deriving DecidableEq, Repr

/-- Python truthiness of `state.get(key)` for an optional string key: falsy
iff the key is absent, `None`, or the empty string (the stored values are
always strings here). -/
def optTruthy (o : Option String) : Bool := o.getD "" != ""

/-- The collaborators a `RoutingAgent` instance closes over: the resolved
weather/hotel specialist names (`_weather_agent_name`, `_hotel_agent_name`),
the extracted reply text each specialist returns for a given prompt
(`_extract_task_output ∘ _send_message`, with `""` for every failure mode),
and the location-hint extractor of the policy manager. -/
structure Env where
  weather_agent_name : Option String
  hotel_agent_name : Option String
  weatherResponse : String → String
  hotelResponse : String → String
  locationHint : String → Option String

namespace RoutingAgent

/-- `RoutingAgent._classify_request`: seeds a fresh state from the
classification.  Note that it rebuilds the dict from scratch (no `**state`
spread), so every optional key is reset to absent. -/
def classify_request (env : Env) (state : HostGraphState) : HostGraphState :=
  let classification := TravelPolicyManager.classify_request env.locationHint state.user_message
  let policy_notes : List String :=
    match classification.note with
    | some note => [note]
    | none => []
  let response_chunks : List String :=
    if classification.need_rentals then
      ["Policy check: I\x27ll review the weather before sharing hotel ideas."]
    else if classification.need_weather then
      ["Policy check: looping in the weather specialist for you."]
    else []
  { user_message := state.user_message
    session_id := state.session_id
    response_chunks := response_chunks
    policy_notes := policy_notes
    need_weather := classification.need_weather
    need_hotel := classification.need_rentals
    location_hint := classification.location_hint
    weather_output := none
    hotel_output := none
    policy_route := none
    final_decision := none }

/-- `RoutingAgent._evaluate_policy`: the routing brain.  Every branch
returns `{**state, ...}`, with `policy_route` selecting the next stage. -/
def evaluate_policy (env : Env) (state : HostGraphState) : HostGraphState :=
  let policy_notes := state.policy_notes
  if state.need_weather && !optTruthy state.weather_output then
    match env.weather_agent_name with
    | none =>
      { state with
        policy_notes := policy_notes ++
          ["Policy fallback: weather specialist unavailable; responding directly."]
        policy_route := some "respond"
        final_decision := state.final_decision }
    | some _ =>
      { state with
        policy_notes := policy_notes ++
          ["Policy: awaiting weather data before continuing with the plan."]
        policy_route := some "fetch_weather" }
  else if state.need_hotel then
    let weather_output := state.weather_output.getD ""
    if weather_output == "" then
      { state with
        policy_notes := policy_notes ++
          ["Policy: weather result missing, re-requesting from specialist."]
        policy_route := some "fetch_weather" }
    else if TravelPolicyManager.should_block_rentals weather_output then
      { state with
        policy_notes := policy_notes ++
          ["Policy: hazardous conditions detected, pausing hotel guidance."]
        policy_route := some "deny_hotel"
        final_decision := some "deny_hotel" }
    else
      match env.hotel_agent_name with
      | none =>
        { state with
          policy_notes := policy_notes ++
            ["Policy fallback: Hotel specialist unavailable, sharing weather only."]
          policy_route := some "respond"
          final_decision := some "allow_hotel" }
      | some _ =>
        { state with
          policy_notes := policy_notes ++
            ["Policy: weather looks acceptable, gathering hotel suggestions."]
          policy_route := some "fetch_hotel"
          final_decision := some "allow_hotel" }
  else
    { state with
      policy_notes := policy_notes
      policy_route := some "respond"
      final_decision := state.final_decision }

/-- `RoutingAgent._route_policy`: `state.get("policy_route", "respond")`. -/
def route_policy (state : HostGraphState) : String :=
  state.policy_route.getD "respond"

/-- The task prompt `_fetch_weather` sends to the weather specialist
(`os.linesep` rendered as a newline). -/
def weatherPrompt (user_message : String) : String :=
  "You are assisting a travel policy review. Provide a concise forecast highlighting any safety risks.\nUser request:\n"
    ++ user_message

/-- The interpolated `location_text` of `_fetch_weather`:
`f" for {location}" if location else ""` over `state.get("location_hint")`
(absent, `None`-valued and empty hints are all falsy). -/
def locationText (location_hint : Option String) : String :=
  match location_hint with
  | some location => if location == "" then "" else " for " ++ location
  | none => ""

/-- `RoutingAgent._fetch_weather`: consult the weather specialist, append a
formatted outlook (or a failure note), and record `weather_output` — always
a string, possibly empty on failure. -/
def fetch_weather (env : Env) (state : HostGraphState) : HostGraphState :=
  let responses := state.response_chunks
  match env.weather_agent_name with
  | none =>
    { state with
      response_chunks := responses ++ ["Weather specialist is offline right now."]
      weather_output := some "" }
  | some _ =>
    let location_text : String := locationText state.location_hint
    let weather_output := env.weatherResponse (weatherPrompt state.user_message)
    let responses :=
      if weather_output != "" then
        responses ++ ["Weather outlook" ++ location_text ++ ":\n" ++ stripString weather_output]
      else
        responses ++ ["I could not retrieve a weather update" ++ location_text ++ "."]
    { state with
      response_chunks := responses
      weather_output := some weather_output }

/-- The task prompt `_fetch_hotel` sends to the hotel specialist.  The
weather summary is `state.get("weather_output", "Not available")`. -/
def hotelPrompt (weather_summary user_message : String) : String :=
  "The host assistant cleared the weather policy check and now needs fictional hotel ideas. Use the weather summary below to tailor your reply.\nWeather summary:\n"
    ++ weather_summary ++ "\nUser request:\n" ++ user_message

/-- `RoutingAgent._fetch_hotel`. -/
def fetch_hotel (env : Env) (state : HostGraphState) : HostGraphState :=
  let responses := state.response_chunks
  match env.hotel_agent_name with
  | none =>
    { state with
      response_chunks := responses ++ ["Hotel specialist is offline right now."]
      hotel_output := some "" }
  | some _ =>
    let weather_summary : String :=
      match state.weather_output with
      | some w => w
      | none => "Not available"
    let hotel_output := env.hotelResponse (hotelPrompt weather_summary state.user_message)
    let responses :=
      if hotel_output != "" then
        responses ++ ["Hotel ideas:\n" ++ stripString hotel_output]
      else
        responses ++ ["The Hotel specialist did not return any options."]
    { state with
      response_chunks := responses
      hotel_output := some hotel_output }

/-- `RoutingAgent._compose_response`: append the closing summary chosen by
the decision outcome, then the accumulated policy notes as a bulleted
list, joined into a single fragment. -/
def compose_response (state : HostGraphState) : HostGraphState :=
  let responses := state.response_chunks
  let policy_notes := state.policy_notes
  let need_hotel := state.need_hotel
  let final_decision := state.final_decision
  let weather_output := state.weather_output
  let summary_lines : List String :=
    if need_hotel && final_decision == some "deny_hotel" then
      ["Because the forecast includes hazardous conditions, I\x27m pausing hotel recommendations. Consider alternate dates or destinations."]
    else if need_hotel && optTruthy state.hotel_output then
      ["Here are some rental ideas that align with the current forecast.",
       stripString (state.hotel_output.getD "")]
    else if optTruthy weather_output then
      ["Let me know if you need help planning activities around this weather outlook."]
    else
      ["I can coordinate weather checks and hotel planning whenever you\x27re ready."]
  let summary_lines :=
    if policy_notes.isEmpty then summary_lines
    else summary_lines ++ ["Policy summary:"] ++ policy_notes.map (fun note => "- " ++ note)
  { state with response_chunks := responses ++ [String.intercalate "\n" summary_lines] }

/-- The route map attached to `evaluate_policy` by `_build_graph`. -/
def policyRouteMap : List (String × String) :=
  [("fetch_weather", "fetch_weather"),
   ("fetch_hotel", "fetch_hotel"),
   ("deny_hotel", "compose_response"),
   ("respond", "compose_response")]

/-- Resolution of a route key through the conditional edge of
`evaluate_policy`: mapped keys continue, unmapped keys fall back to `END`. -/
def policyRouteTarget (route : String) : NodeRef :=
  match policyRouteMap.lookup route with
  | some next => .node next
  | none => .END

/-- `RoutingAgent._build_graph` before compilation: the stage registry,
entry point, static edges and the conditional edge of `evaluate_policy`.
Every stage callable always returns a dict, hence `some`. -/
def host_state_graph (env : Env) : StateGraph HostGraphState :=
  ((((((((((StateGraph.empty HostGraphState).add_node
    "classify_request" (fun s => some (classify_request env s))).add_node
    "evaluate_policy" (fun s => some (evaluate_policy env s))).add_node
    "fetch_weather" (fun s => some (fetch_weather env s))).add_node
    "fetch_hotel" (fun s => some (fetch_hotel env s))).add_node
    "compose_response" (fun s => some (compose_response s))).set_entry_point
    "classify_request").add_edge
    "classify_request" (.node "evaluate_policy")).add_conditional_edges
    "evaluate_policy" route_policy policyRouteMap).add_edge
    "fetch_weather" (.node "evaluate_policy")).add_edge
    "fetch_hotel" (.node "compose_response")|>.add_edge
    "compose_response" .END

/-- `RoutingAgent._build_graph`: compile the definition. -/
def build_graph (env : Env) : Except GraphError (CompiledGraph HostGraphState) :=
  (host_state_graph env).compile

/-- The compiled policy graph (the value `build_graph` succeeds with). -/
def hostGraph (env : Env) : CompiledGraph HostGraphState :=
  { nodes := (host_state_graph env).nodes
    edges := (host_state_graph env).edges
    conditionals := (host_state_graph env).conditionals
    entry_point := "classify_request" }

/-- The initial state `handle_user_message` builds: only `user_message` and
`session_id` are present. -/
def initialState (message session_id : String) : HostGraphState :=
  { user_message := message
    session_id := session_id
    response_chunks := []
    policy_notes := []
    need_weather := false
    need_hotel := false
    location_hint := none
    weather_output := none
    hotel_output := none
    policy_route := none
    final_decision := none }

/-- The graph run performed inside `handle_user_message`
(`self._graph.ainvoke(initial_state)`), with its invocation trace. -/
def runGraph (env : Env) (fuel : Nat) (message session_id : String) :
    RunResult HostGraphState × List String :=
  match build_graph env with
  | .error _ => (.error (.configurationError "unreachable"), [])
  | .ok graph => ainvoke graph fuel (initialState message session_id)

/-- The synthesized fallback reply for a run with no response fragments. -/
def fallbackMessage : String := "I\x27m not sure how to help with that just yet."

/-- `RoutingAgent.handle_user_message`: run the graph and return the
response fragments, substituting the fallback message when the completed
run produced none.  Session-history bookkeeping appends the message and the
returned fragments to `_session_history` but never influences the returned
value, so it is not part of the model.  `none` stands for a run that did
not complete (an exception propagating to the caller, or fuel exhaustion
of the embedding).  The invocation trace is returned alongside. -/
def handle_user_message (env : Env) (fuel : Nat) (message session_id : String) :
    Option (List String) × List String :=
  match runGraph env fuel message session_id with
  | (.ok final, trace) =>
    let responses := final.response_chunks
    if responses.isEmpty then (some [fallbackMessage], trace)
    else (some responses, trace)
  | (_, trace) => (none, trace)

/-- Number of `fetch_weather` invocations recorded in a trace. -/
def weatherCount (trace : List String) : Nat := trace.count "fetch_weather"

/-- The need-flag consistency every state seeded by `classify_request`
enjoys: a rental intent forces the weather intent. -/
def flagsConsistent (state : HostGraphState) : Prop :=
  state.need_hotel = true → state.need_weather = true

/-- Invariant attached to each executor position of the policy automaton,
used for the `fetch_weather` invocation bound. -/
def runInv : NodeRef → HostGraphState → Prop
  | .node "evaluate_policy", s => flagsConsistent s
  | .node "fetch_weather", s => flagsConsistent s
  | _, _ => True

/-- Upper bound on the number of future `fetch_weather` invocations from a
given position, valid when every weather reply is non-empty. -/
def fetchBudget (env : Env) : NodeRef → HostGraphState → Nat
  | .node "classify_request", _ => 1
  | .node "evaluate_policy", s =>
    if optTruthy s.weather_output then 0
    else if env.weather_agent_name.isSome then 1 else 0
  | .node "fetch_weather", _ => 1
  | _, _ => 0

end RoutingAgent

/-- A two-node graph exercising both result modes of a stage callable:
`"noop"` returns `None`, `"inc"` returns a replacement state. -/
def exampleGraph : CompiledGraph Nat :=
  { nodes := [("noop", fun _ => none), ("inc", fun n => some (n + 1))]
    edges := []
    conditionals := []
    entry_point := "noop" }

/-- A graph whose single static edge targets an unregistered stage name. -/
def danglingGraph : CompiledGraph Nat :=
  { nodes := [("a", fun n => some n)]
    edges := [("a", .node "ghost")]
    conditionals := []
    entry_point := "a" }

/-- A graph whose router emits a route key absent from the route map. -/
def unmappedRouteGraph : CompiledGraph Nat :=
  { nodes := [("a", fun n => some (n + 1))]
    edges := []
    conditionals := [("a", (fun _ => "mystery", [("known", "a")]))]
    entry_point := "a" }

/-- A concrete environment used by the witnesses: both specialists known,
a calm non-empty weather reply, a fixed hotel reply. -/
def exampleEnv : Env :=
  { weather_agent_name := some "Weather Specialist"
    hotel_agent_name := some "Hotel Specialist"
    weatherResponse := fun _ => "Warm sunshine and gentle breezes all weekend."
    hotelResponse := fun _ => "Consider the Ocean Breeze loft a short walk from the pier."
    locationHint := fun _ => some "Seattle" }

/-- An environment whose weather specialist reports hazardous conditions
for every prompt (the blocked-hotel scenario of the spec). -/
def hazardEnv : Env :=
  { weather_agent_name := some "Weather Specialist"
    hotel_agent_name := some "Hotel Specialist"
    weatherResponse := fun _ =>
      "Severe storm warning with dangerous flooding expected for Seattle."
    hotelResponse := fun _ => "Consider the Ocean Breeze loft a short walk from the pier."
    locationHint := fun _ => some "Seattle" }

/-- The environment of the `C1` counterexample: the weather specialist is
known but every reply extracted from it is the empty string (a failed or
empty remote task, as `_extract_task_output` produces on every failure
mode). -/
def emptyWeatherEnv : Env :=
  { weather_agent_name := some "Weather Specialist"
    hotel_agent_name := some "Hotel Specialist"
    weatherResponse := fun _ => ""
    hotelResponse := fun _ => ""
    locationHint := fun _ => none }

/-- The final state of the run of `exampleEnv` on the message `"hi"` (no
weather or rental intent), used to witness the fallback-guard claim. -/
def exampleFinalState : HostGraphState :=
  { user_message := "hi"
    session_id := "s"
    response_chunks :=
      ["I can coordinate weather checks and hotel planning whenever you\x27re ready."]
    policy_notes := []
    need_weather := false
    need_hotel := false
    location_hint := some "Seattle"
    weather_output := none
    hotel_output := none
    policy_route := some "respond"
    final_decision := none }

/-! ## Executor unfolding lemmas -/

theorem runFrom_END {σ : Type} (g : CompiledGraph σ) (fuel : Nat) (s : σ) :
    runFrom g fuel .END s = (.ok s, []) := by
  cases fuel <;> rfl

theorem runFrom_succ_error {σ : Type} (g : CompiledGraph σ) (fuel : Nat) (n : String) (s : σ)
    (e : GraphError) (h : stepNode g n s = .error e) :
    runFrom g (fuel + 1) (.node n) s = (.error e, []) := by
  simp only [runFrom, h]

theorem runFrom_succ_ok {σ : Type} (g : CompiledGraph σ) (fuel : Nat) (n : String) (s s' : σ)
    (next : NodeRef) (h : stepNode g n s = .ok (s', next)) :
    runFrom g (fuel + 1) (.node n) s =
      ((runFrom g fuel next s').1, n :: (runFrom g fuel next s').2) := by
  simp only [runFrom, h]

theorem stepNode_lookup_some {σ : Type} (g : CompiledGraph σ) (name : String)
    (f : σ → Option σ) (s : σ) (h : g.nodes.lookup name = some f) :
    ∃ next, stepNode g name s = .ok ((f s).getD s, next) := by
  have hs : (match f s with | some result => result | none => s) = (f s).getD s := by
    cases f s <;> rfl
  unfold stepNode
  rw [h]
  simp only [hs]
  cases hc : g.conditionals.lookup name with
  | some p =>
    obtain ⟨router, mapping⟩ := p
    cases hm : mapping.lookup (router ((f s).getD s)) with
    | some next => exact ⟨.node next, by simp only [hm]⟩
    | none => exact ⟨.END, by simp only [hm]⟩
  | none =>
    cases he : g.edges.lookup name with
    | some next => exact ⟨next, by simp only [he]⟩
    | none => exact ⟨.END, by simp only [he]⟩

/-! ## Claims about the generic executor -/

/-- C2: in the executor loop, a stage returning `None` leaves the running
state of that iteration unchanged, and a stage returning a mapping has that
mapping replace the running state wholesale (no per-key merge: the new
state is exactly the returned value). -/
theorem executor_replace_law {σ : Type} (g : CompiledGraph σ) (name : String)
    (f : σ → Option σ) (s : σ) (h : g.nodes.lookup name = some f) :
    (f s = none → ∃ next, stepNode g name s = .ok (s, next)) ∧
    (∀ m, f s = some m → ∃ next, stepNode g name s = .ok (m, next)) := by
  obtain ⟨next, hstep⟩ := stepNode_lookup_some g name f s h
  constructor
  · intro hnone
    exact ⟨next, by rw [hstep, hnone]; rfl⟩
  · intro m hsome
    exact ⟨next, by rw [hstep, hsome]; rfl⟩

/-- Witness for C2 on `exampleGraph`: the `None`-returning stage keeps the
state `5`, the replacing stage turns `5` into `6`. -/
theorem executor_replace_law_witness :
    (∃ next, stepNode exampleGraph "noop" 5 = .ok (5, next)) ∧
    (∃ next, stepNode exampleGraph "inc" 5 = .ok (6, next)) :=
  ⟨(executor_replace_law exampleGraph "noop" (fun _ => none) 5 rfl).1 rfl,
   (executor_replace_law exampleGraph "inc" (fun n => some (n + 1)) 5 rfl).2 6 rfl⟩

/-- C4: `compile()` fails with the configuration error iff no entry stage
was set; with an entry stage set it returns the compiled graph (no other
validation is performed). -/
theorem compile_entry_spec {σ : Type} (g : StateGraph σ) :
    (g.entry_point = none →
      g.compile = .error (.configurationError
        "StateGraph requires an entry point before compile().")) ∧
    (∀ name, g.entry_point = some name →
      g.compile = .ok { nodes := g.nodes, edges := g.edges, conditionals := g.conditionals,
                        entry_point := name }) := by
  constructor
  · intro h
    unfold StateGraph.compile
    rw [h]
  · intro name h
    unfold StateGraph.compile
    rw [h]

/-- Witness for C4: the empty graph definition fails to compile; setting an
entry point makes compilation succeed. -/
theorem compile_entry_spec_witness :
    (StateGraph.empty Nat).compile = .error (.configurationError
      "StateGraph requires an entry point before compile().") ∧
    ((StateGraph.empty Nat).set_entry_point "start").compile =
      .ok { nodes := [], edges := [], conditionals := [], entry_point := "start" } :=
  ⟨(compile_entry_spec (StateGraph.empty Nat)).1 rfl,
   (compile_entry_spec ((StateGraph.empty Nat).set_entry_point "start")).2 "start" rfl⟩

/-- C5: whenever execution reaches a stage name absent from the registry,
the run fails immediately — whatever fuel remains — and the
`missingStage` error is the value the executor hands back to its caller. -/
theorem missing_stage_propagates {σ : Type} (g : CompiledGraph σ) (name : String) (s : σ)
    (fuel : Nat) (h : g.nodes.lookup name = none) :
    runFrom g (fuel + 1) (.node name) s = (.error (.missingStage name), []) := by
  apply runFrom_succ_error
  unfold stepNode
  rw [h]

/-- Witness for C5 on `danglingGraph`: reaching the misspelled target `"ghost"`
fails with the missing-stage error. -/
theorem missing_stage_propagates_witness :
    runFrom danglingGraph 4 (.node "ghost") 0 = (.error (.missingStage "ghost"), []) :=
  missing_stage_propagates danglingGraph "ghost" 0 3 rfl

/-- C6: a stage with a conditional edge whose router returns a route key
absent from the route map makes the run terminate silently with the
(possibly updated) state, not an error. -/
theorem unmapped_route_terminates {σ : Type} (g : CompiledGraph σ) (name : String)
    (f : σ → Option σ) (router : σ → String) (mapping : List (String × String)) (s : σ)
    (fuel : Nat)
    (hn : g.nodes.lookup name = some f)
    (hc : g.conditionals.lookup name = some (router, mapping))
    (hr : mapping.lookup (router ((f s).getD s)) = none) :
    runFrom g (fuel + 1) (.node name) s = (.ok ((f s).getD s), [name]) := by
  have hs : (match f s with | some result => result | none => s) = (f s).getD s := by
    cases f s <;> rfl
  have hstep : stepNode g name s = .ok ((f s).getD s, .END) := by
    unfold stepNode
    rw [hn]
    simp only [hs, hc, hr]
  rw [runFrom_succ_ok g fuel name s ((f s).getD s) .END hstep, runFrom_END]

/-- Witness for C6 on `unmappedRouteGraph`: the router emits `"mystery"`,
which the route map does not know, and the run ends with the updated
state `8`. -/
theorem unmapped_route_terminates_witness :
    runFrom unmappedRouteGraph 3 (.node "a") 7 = (.ok 8, ["a"]) :=
  unmapped_route_terminates unmappedRouteGraph "a" (fun n => some (n + 1))
    (fun _ => "mystery") [("known", "a")] 7 2 rfl rfl rfl

/-! ## Unfolding lemmas for the concrete policy graph -/

namespace RoutingAgent

theorem build_graph_ok (env : Env) : build_graph env = .ok (hostGraph env) := rfl

theorem runGraph_eq (env : Env) (fuel : Nat) (message session_id : String) :
    runGraph env fuel message session_id =
      runFrom (hostGraph env) fuel (.node "classify_request") (initialState message session_id) :=
  rfl

theorem stepNode_classify (env : Env) (s : HostGraphState) :
    stepNode (hostGraph env) "classify_request" s =
      .ok (classify_request env s, .node "evaluate_policy") := rfl

theorem hostNodes_evaluate (env : Env) :
    List.lookup "evaluate_policy" (hostGraph env).nodes =
      some (fun s => some (evaluate_policy env s)) := rfl

theorem hostConds_evaluate (env : Env) :
    List.lookup "evaluate_policy" (hostGraph env).conditionals =
      some (route_policy, policyRouteMap) := rfl

theorem stepNode_evaluate (env : Env) (s : HostGraphState) :
    stepNode (hostGraph env) "evaluate_policy" s =
      .ok (evaluate_policy env s, policyRouteTarget (route_policy (evaluate_policy env s))) := by
  unfold stepNode
  rw [hostNodes_evaluate, hostConds_evaluate]
  simp only [policyRouteTarget]
  cases policyRouteMap.lookup (route_policy (evaluate_policy env s)) <;> rfl

theorem stepNode_fetch_weather (env : Env) (s : HostGraphState) :
    stepNode (hostGraph env) "fetch_weather" s =
      .ok (fetch_weather env s, .node "evaluate_policy") := rfl

theorem stepNode_fetch_hotel (env : Env) (s : HostGraphState) :
    stepNode (hostGraph env) "fetch_hotel" s =
      .ok (fetch_hotel env s, .node "compose_response") := rfl

theorem stepNode_compose (env : Env) (s : HostGraphState) :
    stepNode (hostGraph env) "compose_response" s =
      .ok (compose_response s, .END) := rfl

end RoutingAgent

/-! ## Claims about the policy manager and the stage frame -/

/-- C9: `classify_request` can only request the rental action together with
the weather check — `need_rentals = true` forces `need_weather = true`. -/
theorem classify_rentals_forces_weather (location_hint : String → Option String)
    (message : String)
    (h : (TravelPolicyManager.classify_request location_hint message).need_rentals = true) :
    (TravelPolicyManager.classify_request location_hint message).need_weather = true := by
  have hw : (TravelPolicyManager.classify_request location_hint message).need_weather =
      (TravelPolicyManager.WEATHER_KEYWORDS.any
        (strContains (lowerString message)) ||
        (TravelPolicyManager.classify_request location_hint message).need_rentals) := rfl
  rw [hw, h, Bool.or_true]

/-- Witness for C9: `"Book a hotel"` carries the rental intent, and the
classification indeed turns the weather intent on. -/
theorem classify_rentals_forces_weather_witness :
    (TravelPolicyManager.classify_request (fun _ => none) "Book a hotel").need_rentals = true ∧
    (TravelPolicyManager.classify_request (fun _ => none) "Book a hotel").need_weather = true :=
  ⟨by decide, classify_rentals_forces_weather (fun _ => none) "Book a hotel" (by decide)⟩

/-- C10: every stage of the concrete automaton preserves `user_message` and
`session_id`: the five stage callables return states with the same values
of the two fields as their input. -/
theorem stages_preserve_identity (env : Env) (s : HostGraphState) :
    ((RoutingAgent.classify_request env s).user_message = s.user_message ∧
      (RoutingAgent.classify_request env s).session_id = s.session_id) ∧
    ((RoutingAgent.evaluate_policy env s).user_message = s.user_message ∧
      (RoutingAgent.evaluate_policy env s).session_id = s.session_id) ∧
    ((RoutingAgent.fetch_weather env s).user_message = s.user_message ∧
      (RoutingAgent.fetch_weather env s).session_id = s.session_id) ∧
    ((RoutingAgent.fetch_hotel env s).user_message = s.user_message ∧
      (RoutingAgent.fetch_hotel env s).session_id = s.session_id) ∧
    ((RoutingAgent.compose_response s).user_message = s.user_message ∧
      (RoutingAgent.compose_response s).session_id = s.session_id) := by
  refine ⟨⟨rfl, rfl⟩, ?_, ?_, ?_, ⟨rfl, rfl⟩⟩
  · unfold RoutingAgent.evaluate_policy
    dsimp only
    repeat' split
    all_goals exact ⟨rfl, rfl⟩
  · unfold RoutingAgent.fetch_weather
    dsimp only
    repeat' split
    all_goals exact ⟨rfl, rfl⟩
  · unfold RoutingAgent.fetch_hotel
    dsimp only
    repeat' split
    all_goals exact ⟨rfl, rfl⟩

/-! ## Claims about `handle_user_message` -/

/-- C8: for a completed run, if the final state carries no response
fragments then `handle_user_message` returns exactly the one synthesized
fallback message, and in every case the returned fragment list is
non-empty. -/
theorem empty_run_fallback (env : Env) (fuel : Nat) (message session_id : String)
    (final : HostGraphState) (trace : List String)
    (h : RoutingAgent.runGraph env fuel message session_id = (.ok final, trace)) :
    (final.response_chunks = [] →
      RoutingAgent.handle_user_message env fuel message session_id =
        (some [RoutingAgent.fallbackMessage], trace)) ∧
    (∀ responses trace2,
      RoutingAgent.handle_user_message env fuel message session_id = (some responses, trace2) →
      responses ≠ []) := by
  unfold RoutingAgent.handle_user_message
  rw [h]
  constructor
  · intro hempty
    simp [hempty]
  · intro responses trace2 hres
    dsimp only at hres
    cases hc : final.response_chunks.isEmpty with
    | true =>
      simp only [hc, if_true, reduceIte, Prod.mk.injEq, Option.some.injEq] at hres
      obtain ⟨h1, -⟩ := hres
      rw [← h1]
      simp [RoutingAgent.fallbackMessage]
    | false =>
      simp only [hc, Bool.false_eq_true, reduceIte, Prod.mk.injEq, Option.some.injEq] at hres
      obtain ⟨h1, -⟩ := hres
      intro hnil
      rw [← h1] at hnil
      simp [hnil] at hc

/-- Witness for C8: the run of `exampleEnv` on `"hi"` completes with the
final state `exampleFinalState`; its response list is non-empty, so the
fallback implication is vacuous and the returned list is non-empty. -/
theorem empty_run_fallback_witness :
    (exampleFinalState.response_chunks = [] →
      RoutingAgent.handle_user_message exampleEnv 10 "hi" "s" =
        (some [RoutingAgent.fallbackMessage],
         ["classify_request", "evaluate_policy", "compose_response"])) ∧
    (∀ responses trace2,
      RoutingAgent.handle_user_message exampleEnv 10 "hi" "s" = (some responses, trace2) →
      responses ≠ []) :=
  empty_run_fallback exampleEnv 10 "hi" "s" exampleFinalState
    ["classify_request", "evaluate_policy", "compose_response"] (by decide)

theorem runFrom_ok_unique {σ : Type} (g : CompiledGraph σ) :
    ∀ (fuel₁ fuel₂ : Nat) (c : NodeRef) (s r₁ r₂ : σ) (t₁ t₂ : List String),
      runFrom g fuel₁ c s = (.ok r₁, t₁) → runFrom g fuel₂ c s = (.ok r₂, t₂) →
      r₁ = r₂ ∧ t₁ = t₂ := by
  intro fuel₁
  induction fuel₁ with
  | zero =>
    intro fuel₂ c s r₁ r₂ t₁ t₂ h₁ h₂
    cases c with
    | END =>
      rw [runFrom_END] at h₁ h₂
      obtain ⟨e₁, e₁t⟩ := Prod.mk.injEq .. ▸ h₁
      obtain ⟨e₂, e₂t⟩ := Prod.mk.injEq .. ▸ h₂
      cases RunResult.ok.injEq .. ▸ e₁
      cases RunResult.ok.injEq .. ▸ e₂
      exact ⟨rfl, e₁t.symm.trans e₂t⟩
    | node n => simp [runFrom] at h₁
  | succ fuel ih =>
    intro fuel₂ c s r₁ r₂ t₁ t₂ h₁ h₂
    cases c with
    | END =>
      rw [runFrom_END] at h₁ h₂
      obtain ⟨e₁, e₁t⟩ := Prod.mk.injEq .. ▸ h₁
      obtain ⟨e₂, e₂t⟩ := Prod.mk.injEq .. ▸ h₂
      cases RunResult.ok.injEq .. ▸ e₁
      cases RunResult.ok.injEq .. ▸ e₂
      exact ⟨rfl, e₁t.symm.trans e₂t⟩
    | node n =>
      cases fuel₂ with
      | zero => simp [runFrom] at h₂
      | succ fuel₂ =>
        cases hstep : stepNode g n s with
        | error e => rw [runFrom_succ_error g fuel n s e hstep] at h₁; simp at h₁
        | ok p =>
          obtain ⟨s', next⟩ := p
          rw [runFrom_succ_ok g fuel n s s' next hstep] at h₁
          rw [runFrom_succ_ok g fuel₂ n s s' next hstep] at h₂
          simp only [Prod.mk.injEq] at h₁ h₂
          obtain ⟨e₁, e₁t⟩ := h₁
          obtain ⟨e₂, e₂t⟩ := h₂
          obtain ⟨hr, ht⟩ := ih fuel₂ next s' r₁ r₂ (runFrom g fuel next s').2
            (runFrom g fuel₂ next s').2 (by rw [← e₁]) (by rw [← e₂])
          exact ⟨hr, by rw [← e₁t, ← e₂t, ht]⟩

/-- C7: two completed runs of `handle_user_message` with identical
environments (in particular identical collaborator responses), the same
message and the same session id return identical ordered response fragments
(and identical invocation traces), regardless of the fuel given to each. -/
theorem handle_user_message_deterministic (env₁ env₂ : Env) (fuel₁ fuel₂ : Nat)
    (message session_id : String) (r₁ r₂ t₁ t₂ : List String)
    (henv : env₁ = env₂)
    (h₁ : RoutingAgent.handle_user_message env₁ fuel₁ message session_id = (some r₁, t₁))
    (h₂ : RoutingAgent.handle_user_message env₂ fuel₂ message session_id = (some r₂, t₂)) :
    r₁ = r₂ ∧ t₁ = t₂ := by
  subst henv
  unfold RoutingAgent.handle_user_message at h₁ h₂
  rw [RoutingAgent.runGraph_eq] at h₁ h₂
  rcases hq₁ : runFrom (RoutingAgent.hostGraph env₁) fuel₁ (.node "classify_request")
      (RoutingAgent.initialState message session_id) with ⟨res₁, tr₁⟩
  rcases hq₂ : runFrom (RoutingAgent.hostGraph env₁) fuel₂ (.node "classify_request")
      (RoutingAgent.initialState message session_id) with ⟨res₂, tr₂⟩
  rw [hq₁] at h₁
  rw [hq₂] at h₂
  cases res₁ with
  | error e => simp at h₁
  | outOfFuel st cur => simp at h₁
  | ok f₁ =>
    cases res₂ with
    | error e => simp at h₂
    | outOfFuel st cur => simp at h₂
    | ok f₂ =>
      obtain ⟨hf, htr⟩ := runFrom_ok_unique (RoutingAgent.hostGraph env₁) fuel₁ fuel₂
        (.node "classify_request") (RoutingAgent.initialState message session_id)
        f₁ f₂ tr₁ tr₂ hq₁ hq₂
      subst hf
      subst htr
      rw [h₁] at h₂
      obtain ⟨hsome, htr'⟩ := Prod.mk.injEq .. ▸ h₂
      exact ⟨Option.some.injEq .. ▸ hsome, htr'⟩

/-- Witness for C7: two runs of `exampleEnv` on `"hi"` with different fuel
budgets agree on the fragments and the trace. -/
theorem handle_user_message_deterministic_witness :
    (["I can coordinate weather checks and hotel planning whenever you\x27re ready."] =
      ["I can coordinate weather checks and hotel planning whenever you\x27re ready."] ∧
      (["classify_request", "evaluate_policy", "compose_response"] : List String) =
        ["classify_request", "evaluate_policy", "compose_response"]) :=
  handle_user_message_deterministic exampleEnv exampleEnv 10 13 "hi" "s"
    ["I can coordinate weather checks and hotel planning whenever you\x27re ready."]
    ["I can coordinate weather checks and hotel planning whenever you\x27re ready."]
    ["classify_request", "evaluate_policy", "compose_response"]
    ["classify_request", "evaluate_policy", "compose_response"]
    rfl (by decide) (by decide)

/-! ## The hazard-deny scenario -/

/-- C3: whenever the request carries the rental intent, a weather
specialist is known, and the weather reply it produces matches the hazard
vocabulary, the run routes `evaluate_policy → deny_hotel → compose_response`
without ever invoking `fetch_hotel`: the trace is exactly the five-stage
deny path, the final state has no hotel output, the decision is
`deny_hotel`, and the last response fragment contains
`"hazardous conditions"`. -/
theorem hazard_denies_hotel (env : Env) (fuel : Nat) (message session_id w : String)
    (hagent : env.weather_agent_name = some w)
    (hrental : (TravelPolicyManager.classify_request env.locationHint message).need_rentals = true)
    (hhazard : TravelPolicyManager.should_block_rentals
      (env.weatherResponse (RoutingAgent.weatherPrompt message)) = true)
    (hfuel : 5 ≤ fuel) :
    ∃ final : HostGraphState,
      RoutingAgent.runGraph env fuel message session_id =
        (.ok final,
         ["classify_request", "evaluate_policy", "fetch_weather", "evaluate_policy",
          "compose_response"]) ∧
      "fetch_hotel" ∉ (["classify_request", "evaluate_policy", "fetch_weather",
          "evaluate_policy", "compose_response"] : List String) ∧
      final.hotel_output = none ∧
      final.final_decision = some "deny_hotel" ∧
      ∃ last, final.response_chunks.getLast? = some last ∧
        strContains last "hazardous conditions" = true := by
  obtain ⟨k, hk⟩ : ∃ k, fuel = k + 5 := ⟨fuel - 5, by omega⟩
  subst hk
  have hmr : TravelPolicyManager.RENTAL_KEYWORDS.any (strContains (lowerString message)) =
      true := hrental
  have hrespne : (env.weatherResponse (RoutingAgent.weatherPrompt message) == "") = false := by
    cases hbe : env.weatherResponse (RoutingAgent.weatherPrompt message) == "" with
    | false => rfl
    | true =>
      exfalso
      rw [eq_of_beq hbe] at hhazard
      exact absurd hhazard (by decide)
  have hs1 : RoutingAgent.classify_request env (RoutingAgent.initialState message session_id) =
      { user_message := message, session_id := session_id
        response_chunks := ["Policy check: I\x27ll review the weather before sharing hotel ideas."]
        policy_notes :=
          ["Policy: hotel planning must include a fresh weather review before sharing listings."]
        need_weather := true, need_hotel := true
        location_hint := env.locationHint message
        weather_output := none, hotel_output := none, policy_route := none
        final_decision := none } := by
    unfold RoutingAgent.classify_request TravelPolicyManager.classify_request
    dsimp only [RoutingAgent.initialState]
    simp [hmr]
  have hs2 : RoutingAgent.evaluate_policy env
      { user_message := message, session_id := session_id
        response_chunks := ["Policy check: I\x27ll review the weather before sharing hotel ideas."]
        policy_notes :=
          ["Policy: hotel planning must include a fresh weather review before sharing listings."]
        need_weather := true, need_hotel := true
        location_hint := env.locationHint message
        weather_output := none, hotel_output := none, policy_route := none
        final_decision := none } =
      { user_message := message, session_id := session_id
        response_chunks := ["Policy check: I\x27ll review the weather before sharing hotel ideas."]
        policy_notes :=
          ["Policy: hotel planning must include a fresh weather review before sharing listings.",
           "Policy: awaiting weather data before continuing with the plan."]
        need_weather := true, need_hotel := true
        location_hint := env.locationHint message
        weather_output := none, hotel_output := none
        policy_route := some "fetch_weather"
        final_decision := none } := by
    unfold RoutingAgent.evaluate_policy
    rw [hagent]
    simp [optTruthy]
  have hs3 : RoutingAgent.fetch_weather env
      { user_message := message, session_id := session_id
        response_chunks := ["Policy check: I\x27ll review the weather before sharing hotel ideas."]
        policy_notes :=
          ["Policy: hotel planning must include a fresh weather review before sharing listings.",
           "Policy: awaiting weather data before continuing with the plan."]
        need_weather := true, need_hotel := true
        location_hint := env.locationHint message
        weather_output := none, hotel_output := none
        policy_route := some "fetch_weather"
        final_decision := none } =
      { user_message := message, session_id := session_id
        response_chunks :=
          ["Policy check: I\x27ll review the weather before sharing hotel ideas.",
           "Weather outlook" ++ RoutingAgent.locationText (env.locationHint message) ++ ":\n" ++
             stripString (env.weatherResponse (RoutingAgent.weatherPrompt message))]
        policy_notes :=
          ["Policy: hotel planning must include a fresh weather review before sharing listings.",
           "Policy: awaiting weather data before continuing with the plan."]
        need_weather := true, need_hotel := true
        location_hint := env.locationHint message
        weather_output := some (env.weatherResponse (RoutingAgent.weatherPrompt message))
        hotel_output := none
        policy_route := some "fetch_weather"
        final_decision := none } := by
    unfold RoutingAgent.fetch_weather
    rw [hagent]
    simp [bne, hrespne]
  have hs4 : RoutingAgent.evaluate_policy env
      { user_message := message, session_id := session_id
        response_chunks :=
          ["Policy check: I\x27ll review the weather before sharing hotel ideas.",
           "Weather outlook" ++ RoutingAgent.locationText (env.locationHint message) ++ ":\n" ++
             stripString (env.weatherResponse (RoutingAgent.weatherPrompt message))]
        policy_notes :=
          ["Policy: hotel planning must include a fresh weather review before sharing listings.",
           "Policy: awaiting weather data before continuing with the plan."]
        need_weather := true, need_hotel := true
        location_hint := env.locationHint message
        weather_output := some (env.weatherResponse (RoutingAgent.weatherPrompt message))
        hotel_output := none
        policy_route := some "fetch_weather"
        final_decision := none } =
      { user_message := message, session_id := session_id
        response_chunks :=
          ["Policy check: I\x27ll review the weather before sharing hotel ideas.",
           "Weather outlook" ++ RoutingAgent.locationText (env.locationHint message) ++ ":\n" ++
             stripString (env.weatherResponse (RoutingAgent.weatherPrompt message))]
        policy_notes :=
          ["Policy: hotel planning must include a fresh weather review before sharing listings.",
           "Policy: awaiting weather data before continuing with the plan.",
           "Policy: hazardous conditions detected, pausing hotel guidance."]
        need_weather := true, need_hotel := true
        location_hint := env.locationHint message
        weather_output := some (env.weatherResponse (RoutingAgent.weatherPrompt message))
        hotel_output := none
        policy_route := some "deny_hotel"
        final_decision := some "deny_hotel" } := by
    unfold RoutingAgent.evaluate_policy
    simp [optTruthy, bne, hrespne, hhazard]
  have hs5 : RoutingAgent.compose_response
      { user_message := message, session_id := session_id
        response_chunks :=
          ["Policy check: I\x27ll review the weather before sharing hotel ideas.",
           "Weather outlook" ++ RoutingAgent.locationText (env.locationHint message) ++ ":\n" ++
             stripString (env.weatherResponse (RoutingAgent.weatherPrompt message))]
        policy_notes :=
          ["Policy: hotel planning must include a fresh weather review before sharing listings.",
           "Policy: awaiting weather data before continuing with the plan.",
           "Policy: hazardous conditions detected, pausing hotel guidance."]
        need_weather := true, need_hotel := true
        location_hint := env.locationHint message
        weather_output := some (env.weatherResponse (RoutingAgent.weatherPrompt message))
        hotel_output := none
        policy_route := some "deny_hotel"
        final_decision := some "deny_hotel" } =
      { user_message := message, session_id := session_id
        response_chunks :=
          ["Policy check: I\x27ll review the weather before sharing hotel ideas.",
           "Weather outlook" ++ RoutingAgent.locationText (env.locationHint message) ++ ":\n" ++
             stripString (env.weatherResponse (RoutingAgent.weatherPrompt message)),
           "Because the forecast includes hazardous conditions, I\x27m pausing hotel recommendations. Consider alternate dates or destinations.\nPolicy summary:\n- Policy: hotel planning must include a fresh weather review before sharing listings.\n- Policy: awaiting weather data before continuing with the plan.\n- Policy: hazardous conditions detected, pausing hotel guidance."]
        policy_notes :=
          ["Policy: hotel planning must include a fresh weather review before sharing listings.",
           "Policy: awaiting weather data before continuing with the plan.",
           "Policy: hazardous conditions detected, pausing hotel guidance."]
        need_weather := true, need_hotel := true
        location_hint := env.locationHint message
        weather_output := some (env.weatherResponse (RoutingAgent.weatherPrompt message))
        hotel_output := none
        policy_route := some "deny_hotel"
        final_decision := some "deny_hotel" } := rfl
  refine Exists.intro
      { user_message := message, session_id := session_id
        response_chunks :=
          ["Policy check: I\x27ll review the weather before sharing hotel ideas.",
           "Weather outlook" ++ RoutingAgent.locationText (env.locationHint message) ++ ":\n" ++
             stripString (env.weatherResponse (RoutingAgent.weatherPrompt message)),
           "Because the forecast includes hazardous conditions, I\x27m pausing hotel recommendations. Consider alternate dates or destinations.\nPolicy summary:\n- Policy: hotel planning must include a fresh weather review before sharing listings.\n- Policy: awaiting weather data before continuing with the plan.\n- Policy: hazardous conditions detected, pausing hotel guidance."]
        policy_notes :=
          ["Policy: hotel planning must include a fresh weather review before sharing listings.",
           "Policy: awaiting weather data before continuing with the plan.",
           "Policy: hazardous conditions detected, pausing hotel guidance."]
        need_weather := true, need_hotel := true
        location_hint := env.locationHint message
        weather_output := some (env.weatherResponse (RoutingAgent.weatherPrompt message))
        hotel_output := none
        policy_route := some "deny_hotel"
        final_decision := some "deny_hotel" }
      ⟨?_, by decide, rfl, rfl, ⟨"Because the forecast includes hazardous conditions, I\x27m pausing hotel recommendations. Consider alternate dates or destinations.\nPolicy summary:\n- Policy: hotel planning must include a fresh weather review before sharing listings.\n- Policy: awaiting weather data before continuing with the plan.\n- Policy: hazardous conditions detected, pausing hotel guidance.", rfl, by decide⟩⟩
  rw [RoutingAgent.runGraph_eq]
  have h5 := runFrom_succ_ok (RoutingAgent.hostGraph env) (k + 4) "classify_request"
    (RoutingAgent.initialState message session_id) _ (.node "evaluate_policy")
    (by rw [RoutingAgent.stepNode_classify, hs1])
  have h4 := runFrom_succ_ok (RoutingAgent.hostGraph env) (k + 3) "evaluate_policy" _ _
    (.node "fetch_weather") (by rw [RoutingAgent.stepNode_evaluate, hs2]; rfl)
  have h3 := runFrom_succ_ok (RoutingAgent.hostGraph env) (k + 2) "fetch_weather" _ _
    (.node "evaluate_policy") (by rw [RoutingAgent.stepNode_fetch_weather, hs3])
  have h2 := runFrom_succ_ok (RoutingAgent.hostGraph env) (k + 1) "evaluate_policy" _ _
    (.node "compose_response") (by rw [RoutingAgent.stepNode_evaluate, hs4]; rfl)
  have h1 := runFrom_succ_ok (RoutingAgent.hostGraph env) k "compose_response" _ _
    .END (by rw [RoutingAgent.stepNode_compose, hs5])
  rw [show k + 5 = (k + 4) + 1 from rfl, h5, h4, h3, h2, h1, runFrom_END]

/-- Witness for C3: the literal scenario of the spec — booking a hotel in
Seattle while the weather specialist reports a severe storm warning. -/
theorem hazard_denies_hotel_witness :
    ∃ final : HostGraphState,
      RoutingAgent.runGraph hazardEnv 9
          "I\x27d like to book a hotel in Seattle, WA this weekend." "session-block" =
        (.ok final,
         ["classify_request", "evaluate_policy", "fetch_weather", "evaluate_policy",
          "compose_response"]) ∧
      "fetch_hotel" ∉ (["classify_request", "evaluate_policy", "fetch_weather",
          "evaluate_policy", "compose_response"] : List String) ∧
      final.hotel_output = none ∧
      final.final_decision = some "deny_hotel" ∧
      ∃ last, final.response_chunks.getLast? = some last ∧
        strContains last "hazardous conditions" = true :=
  hazard_denies_hotel hazardEnv 9
    "I\x27d like to book a hotel in Seattle, WA this weekend." "session-block"
    "Weather Specialist" rfl (by decide) (by decide) (by decide)

/-! ## The `fetch_weather` invocation bound -/

theorem hostNodes_lookup_none (env : Env) (n : String)
    (h1 : ¬n = "classify_request") (h2 : ¬n = "evaluate_policy") (h3 : ¬n = "fetch_weather")
    (h4 : ¬n = "fetch_hotel") (h5 : ¬n = "compose_response") :
    List.lookup n (RoutingAgent.hostGraph env).nodes = none := by
  have e : (RoutingAgent.hostGraph env).nodes =
      [("compose_response", fun s => some (RoutingAgent.compose_response s)),
       ("fetch_hotel", fun s => some (RoutingAgent.fetch_hotel env s)),
       ("fetch_weather", fun s => some (RoutingAgent.fetch_weather env s)),
       ("evaluate_policy", fun s => some (RoutingAgent.evaluate_policy env s)),
       ("classify_request", fun s => some (RoutingAgent.classify_request env s))] := rfl
  have b1 : (n == "classify_request") = false := beq_eq_false_iff_ne.mpr h1
  have b2 : (n == "evaluate_policy") = false := beq_eq_false_iff_ne.mpr h2
  have b3 : (n == "fetch_weather") = false := beq_eq_false_iff_ne.mpr h3
  have b4 : (n == "fetch_hotel") = false := beq_eq_false_iff_ne.mpr h4
  have b5 : (n == "compose_response") = false := beq_eq_false_iff_ne.mpr h5
  rw [e]
  simp [List.lookup, b1, b2, b3, b4, b5]

theorem fetch_budget_step (env : Env) (hW : ∀ prompt, env.weatherResponse prompt ≠ "")
    (n : String) (s s' : HostGraphState) (next : NodeRef)
    (hInv : RoutingAgent.runInv (.node n) s)
    (hstep : stepNode (RoutingAgent.hostGraph env) n s = .ok (s', next)) :
    RoutingAgent.runInv next s' ∧
      (if n == "fetch_weather" then 1 else 0) + RoutingAgent.fetchBudget env next s' ≤
        RoutingAgent.fetchBudget env (.node n) s := by
  by_cases h1 : n = "classify_request"
  · subst h1
    rw [RoutingAgent.stepNode_classify] at hstep
    obtain ⟨hs', hnext⟩ : RoutingAgent.classify_request env s = s' ∧
        NodeRef.node "evaluate_policy" = next := by simpa using hstep
    subst hs'
    subst hnext
    constructor
    · intro hh
      have hmr : TravelPolicyManager.RENTAL_KEYWORDS.any
          (strContains (lowerString s.user_message)) = true := hh
      show (TravelPolicyManager.WEATHER_KEYWORDS.any (strContains (lowerString s.user_message)) ||
          TravelPolicyManager.RENTAL_KEYWORDS.any (strContains (lowerString s.user_message))) = true
      rw [hmr, Bool.or_true]
    · show 0 + (if optTruthy (RoutingAgent.classify_request env s).weather_output then 0
          else if env.weather_agent_name.isSome then 1 else 0) ≤ 1
      have hw : (RoutingAgent.classify_request env s).weather_output = none := rfl
      rw [hw]
      simp only [optTruthy, Option.getD_none, bne_self_eq_false, if_false, Bool.false_eq_true,
        reduceIte, Nat.zero_add]
      cases env.weather_agent_name <;> simp
  by_cases h2 : n = "evaluate_policy"
  · subst h2
    rw [RoutingAgent.stepNode_evaluate] at hstep
    obtain ⟨hs', hnext⟩ : RoutingAgent.evaluate_policy env s = s' ∧
        RoutingAgent.policyRouteTarget (RoutingAgent.route_policy
          (RoutingAgent.evaluate_policy env s)) = next := by simpa using hstep
    subst hs'
    subst hnext
    by_cases hbw : (s.need_weather && !optTruthy s.weather_output) = true
    · cases hag : env.weather_agent_name with
      | none =>
        have he : RoutingAgent.evaluate_policy env s =
            { s with
              policy_notes := s.policy_notes ++
                ["Policy fallback: weather specialist unavailable; responding directly."]
              policy_route := some "respond"
              final_decision := s.final_decision } := by
          unfold RoutingAgent.evaluate_policy
          rw [if_pos hbw, hag]
        rw [he]
        exact ⟨trivial, Nat.zero_le _⟩
      | some w =>
        have he : RoutingAgent.evaluate_policy env s =
            { s with
              policy_notes := s.policy_notes ++
                ["Policy: awaiting weather data before continuing with the plan."]
              policy_route := some "fetch_weather" } := by
          unfold RoutingAgent.evaluate_policy
          rw [if_pos hbw, hag]
        rw [he]
        have hot : optTruthy s.weather_output = false := by
          have := ((Bool.and_eq_true _ _).mp hbw).2
          simpa using this
        constructor
        · intro hh
          exact hInv hh
        · show 1 ≤ (if optTruthy s.weather_output then 0
            else if env.weather_agent_name.isSome then 1 else 0)
          rw [hot, hag]
          simp
    · by_cases hbh : s.need_hotel = true
      · by_cases hwe : (s.weather_output.getD "" == "") = true
        · exfalso
          have hot : optTruthy s.weather_output = false := by
            simp [optTruthy, eq_of_beq hwe]
          have hnw : s.need_weather = false := by
            cases hx : s.need_weather with
            | false => rfl
            | true => exact absurd (by rw [hx, hot]; rfl) hbw
          have := hInv hbh
          rw [hnw] at this
          exact Bool.false_ne_true this
        · by_cases hblock :
            TravelPolicyManager.should_block_rentals (s.weather_output.getD "") = true
          · have he : RoutingAgent.evaluate_policy env s =
                { s with
                  policy_notes := s.policy_notes ++
                    ["Policy: hazardous conditions detected, pausing hotel guidance."]
                  policy_route := some "deny_hotel"
                  final_decision := some "deny_hotel" } := by
              unfold RoutingAgent.evaluate_policy
              rw [if_neg hbw, if_pos hbh]
              dsimp only
              rw [if_neg hwe, if_pos hblock]
            rw [he]
            exact ⟨trivial, Nat.zero_le _⟩
          · cases hag : env.hotel_agent_name with
            | none =>
              have he : RoutingAgent.evaluate_policy env s =
                  { s with
                    policy_notes := s.policy_notes ++
                      ["Policy fallback: Hotel specialist unavailable, sharing weather only."]
                    policy_route := some "respond"
                    final_decision := some "allow_hotel" } := by
                unfold RoutingAgent.evaluate_policy
                rw [if_neg hbw, if_pos hbh]
                dsimp only
                rw [if_neg hwe, if_neg hblock, hag]
              rw [he]
              exact ⟨trivial, Nat.zero_le _⟩
            | some h =>
              have he : RoutingAgent.evaluate_policy env s =
                  { s with
                    policy_notes := s.policy_notes ++
                      ["Policy: weather looks acceptable, gathering hotel suggestions."]
                    policy_route := some "fetch_hotel"
                    final_decision := some "allow_hotel" } := by
                unfold RoutingAgent.evaluate_policy
                rw [if_neg hbw, if_pos hbh]
                dsimp only
                rw [if_neg hwe, if_neg hblock, hag]
              rw [he]
              exact ⟨trivial, Nat.zero_le _⟩
      · have he : RoutingAgent.evaluate_policy env s =
            { s with
              policy_notes := s.policy_notes
              policy_route := some "respond"
              final_decision := s.final_decision } := by
          unfold RoutingAgent.evaluate_policy
          rw [if_neg hbw, if_neg hbh]
        rw [he]
        exact ⟨trivial, Nat.zero_le _⟩
  by_cases h3 : n = "fetch_weather"
  · subst h3
    rw [RoutingAgent.stepNode_fetch_weather] at hstep
    obtain ⟨hs', hnext⟩ : RoutingAgent.fetch_weather env s = s' ∧
        NodeRef.node "evaluate_policy" = next := by simpa using hstep
    subst hs'
    subst hnext
    cases hag : env.weather_agent_name with
    | none =>
      have he : RoutingAgent.fetch_weather env s =
          { s with
            response_chunks := s.response_chunks ++ ["Weather specialist is offline right now."]
            weather_output := some "" } := by
        unfold RoutingAgent.fetch_weather
        rw [hag]
      rw [he]
      refine ⟨fun hh => hInv hh, ?_⟩
      show 1 + (if optTruthy (some "") then 0
          else if env.weather_agent_name.isSome then 1 else 0) ≤ 1
      rw [hag]
      simp [optTruthy]
    | some w =>
      have hwo : (RoutingAgent.fetch_weather env s).weather_output =
          some (env.weatherResponse (RoutingAgent.weatherPrompt s.user_message)) := by
        unfold RoutingAgent.fetch_weather
        rw [hag]
      have hnh : (RoutingAgent.fetch_weather env s).need_hotel = s.need_hotel := by
        unfold RoutingAgent.fetch_weather
        rw [hag]
      have hnw : (RoutingAgent.fetch_weather env s).need_weather = s.need_weather := by
        unfold RoutingAgent.fetch_weather
        rw [hag]
      constructor
      · intro hh
        rw [hnh] at hh
        rw [hnw]
        exact hInv hh
      · show 1 + (if optTruthy (RoutingAgent.fetch_weather env s).weather_output then 0
            else if env.weather_agent_name.isSome then 1 else 0) ≤ 1
        rw [hwo]
        have hot : optTruthy
            (some (env.weatherResponse (RoutingAgent.weatherPrompt s.user_message))) = true := by
          simpa [optTruthy] using hW (RoutingAgent.weatherPrompt s.user_message)
        rw [hot]
        simp
  by_cases h4 : n = "fetch_hotel"
  · subst h4
    rw [RoutingAgent.stepNode_fetch_hotel] at hstep
    obtain ⟨hs', hnext⟩ : RoutingAgent.fetch_hotel env s = s' ∧
        NodeRef.node "compose_response" = next := by simpa using hstep
    subst hs'
    subst hnext
    exact ⟨trivial, Nat.zero_le _⟩
  by_cases h5 : n = "compose_response"
  · subst h5
    rw [RoutingAgent.stepNode_compose] at hstep
    obtain ⟨hs', hnext⟩ : RoutingAgent.compose_response s = s' ∧ NodeRef.END = next := by
      simpa using hstep
    subst hs'
    subst hnext
    exact ⟨trivial, Nat.zero_le _⟩
  · have hnone : List.lookup n (RoutingAgent.hostGraph env).nodes = none :=
      hostNodes_lookup_none env n h1 h2 h3 h4 h5
    have : stepNode (RoutingAgent.hostGraph env) n s = .error (.missingStage n) := by
      unfold stepNode
      rw [hnone]
    rw [this] at hstep
    exact absurd hstep (by simp)

theorem RoutingAgent.weatherCount_le (env : Env) (hW : ∀ prompt, env.weatherResponse prompt ≠ "") :
    ∀ (fuel : Nat) (c : NodeRef) (s : HostGraphState),
      RoutingAgent.runInv c s →
      RoutingAgent.weatherCount (runFrom (RoutingAgent.hostGraph env) fuel c s).2 ≤
        RoutingAgent.fetchBudget env c s := by
  intro fuel
  induction fuel with
  | zero =>
    intro c s hInv
    cases c with
    | END => exact Nat.zero_le _
    | node n => exact Nat.zero_le _
  | succ fuel ih =>
    intro c s hInv
    cases c with
    | END => exact Nat.zero_le _
    | node n =>
      cases hstep : stepNode (RoutingAgent.hostGraph env) n s with
      | error e =>
        rw [runFrom_succ_error _ fuel n s e hstep]
        exact Nat.zero_le _
      | ok p =>
        obtain ⟨s', next⟩ := p
        rw [runFrom_succ_ok _ fuel n s s' next hstep]
        obtain ⟨hInv', hbud⟩ := fetch_budget_step env hW n s s' next hInv hstep
        have hrec := ih next s' hInv'
        have hcount : RoutingAgent.weatherCount
            (n :: (runFrom (RoutingAgent.hostGraph env) fuel next s').2) =
            RoutingAgent.weatherCount (runFrom (RoutingAgent.hostGraph env) fuel next s').2 +
              (if n == "fetch_weather" then 1 else 0) := by
          by_cases hn : n = "fetch_weather"
          · subst hn
            simp [RoutingAgent.weatherCount, List.count_cons]
          · simp [RoutingAgent.weatherCount, List.count_cons, hn]
        dsimp only
        rw [hcount]
        omega

/-! ## Claim C1 -/

/-- C1 fails on the code: with the weather specialist known but returning
an empty reply text (a failed task), branch 1 of `evaluate_policy` keeps
re-firing — its guard tests Python truthiness of `weather_output`, not
presence — so the first eight loop iterations already invoke
`fetch_weather` three times (and the run never terminates). -/
theorem fetch_weather_bound_counterexample :
    RoutingAgent.weatherCount (RoutingAgent.runGraph emptyWeatherEnv 8 "what is the weather" "session").2 =
      3 := by decide

/-- C1 (amended): in every run started by `handle_user_message`, if every
weather reply extracted from the specialist is non-empty, the
`fetch_weather` stage is invoked at most twice (in fact at most once),
however long the run is allowed to go on. -/
theorem fetch_weather_bound_amended (env : Env)
    (hW : ∀ prompt, env.weatherResponse prompt ≠ "")
    (fuel : Nat) (message session_id : String) :
    RoutingAgent.weatherCount (RoutingAgent.runGraph env fuel message session_id).2 ≤ 2 := by
  rw [RoutingAgent.runGraph_eq]
  have h := RoutingAgent.weatherCount_le env hW fuel (.node "classify_request")
    (RoutingAgent.initialState message session_id) trivial
  have hb : RoutingAgent.fetchBudget env (.node "classify_request")
      (RoutingAgent.initialState message session_id) = 1 := rfl
  omega

/-- Witness for the amended C1: with a calm non-empty weather reply, a
hotel request invokes `fetch_weather` at most twice. -/
theorem fetch_weather_bound_amended_witness :
    RoutingAgent.weatherCount (RoutingAgent.runGraph exampleEnv 10 "Book a hotel in Denver" "sess").2 ≤ 2 :=
  fetch_weather_bound_amended exampleEnv
    (fun prompt =>
      (by decide : ("Warm sunshine and gentle breezes all weekend." : String) ≠ "")) 10
    "Book a hotel in Denver" "sess"

end A2AHost
